import Mathlib

/-!
# Verification of the CandyStore core (keanus_candy)

Shallow embedding of `src/keanus_candy/models/payment.py` and
`src/keanus_candy/models/person.py`, together with the shopping-cart
component that the repository's `person.py` calls into
(`keanus_candy/models/shopping.py`, not present under `src/`; it is
modelled from the specification where so marked).

Conventions of the embedding:
* Python exceptions become explicit `Except PyError` results; a method that
  can raise and mutate returns the error (state unchanged) or the new state.
* Monetary amounts (Python `float`) are modelled as `ℚ`.
* External randomness (`os.urandom`, `uuid.uuid4`) is modelled as injected
  supplies: fresh salts are explicit arguments, receipt ids come from a
  per-instance counter.
* `hashlib.sha256` (an external library) is stood in for by a fixed
  deterministic digest function `hashDigest`; the development uses only
  that it is a deterministic function of its input bytes.
* Strings are Lean `String`s (sequences of Unicode code points), matching
  Python `str`.
-/

/-- A raised Python `ValueError` with its message.  The specification's
`ValidationError` and `EmptyCartError` are both realized in the source as
`ValueError` with distinguishing messages. -/
inductive PyError where
  | valueError (msg : String)
  deriving DecidableEq, Repr

/-- Bytes as used by `os.urandom` / `hashlib`: a list of values `< 256`. -/
abbrev Bytes := List (Fin 256)

/-! ## Unicode decimal digits (`\d` in a Python `str` regex)

Python's `re` module, on `str` patterns without `re.ASCII`, lets `\d` match
every character of Unicode category Nd.  The list below is the complete
set of Nd code-point ranges of the CPython runtime's Unicode tables. -/

def ndRanges : List (Nat × Nat) :=
  [(0x30, 0x39), (0x660, 0x669), (0x6f0, 0x6f9), (0x7c0, 0x7c9),
   (0x966, 0x96f), (0x9e6, 0x9ef), (0xa66, 0xa6f), (0xae6, 0xaef),
   (0xb66, 0xb6f), (0xbe6, 0xbef), (0xc66, 0xc6f), (0xce6, 0xcef),
   (0xd66, 0xd6f), (0xde6, 0xdef), (0xe50, 0xe59), (0xed0, 0xed9),
   (0xf20, 0xf29), (0x1040, 0x1049), (0x1090, 0x1099), (0x17e0, 0x17e9),
   (0x1810, 0x1819), (0x1946, 0x194f), (0x19d0, 0x19d9), (0x1a80, 0x1a89),
   (0x1a90, 0x1a99), (0x1b50, 0x1b59), (0x1bb0, 0x1bb9), (0x1c40, 0x1c49),
   (0x1c50, 0x1c59), (0xa620, 0xa629), (0xa8d0, 0xa8d9), (0xa900, 0xa909),
   (0xa9d0, 0xa9d9), (0xa9f0, 0xa9f9), (0xaa50, 0xaa59), (0xabf0, 0xabf9),
   (0xff10, 0xff19), (0x104a0, 0x104a9), (0x10d30, 0x10d39),
   (0x11066, 0x1106f), (0x110f0, 0x110f9), (0x11136, 0x1113f),
   (0x111d0, 0x111d9), (0x112f0, 0x112f9), (0x11450, 0x11459),
   (0x114d0, 0x114d9), (0x11650, 0x11659), (0x116c0, 0x116c9),
   (0x11730, 0x11739), (0x118e0, 0x118e9), (0x11950, 0x11959),
   (0x11c50, 0x11c59), (0x11d50, 0x11d59), (0x11da0, 0x11da9),
   (0x16a60, 0x16a69), (0x16ac0, 0x16ac9), (0x16b50, 0x16b59),
   (0x1d7ce, 0x1d7ff), (0x1e140, 0x1e149), (0x1e2f0, 0x1e2f9),
   (0x1e950, 0x1e959), (0x1fbf0, 0x1fbf9)]

/-- `\d` of a Python `str` regex: membership in Unicode category Nd. -/
def isPyDigit (c : Char) : Bool :=
  ndRanges.any (fun r => r.1 ≤ c.toNat && c.toNat ≤ r.2)

/-- An ASCII decimal digit `0`-`9` (what the specification calls an
"ASCII digit"). -/
def isAsciiDigit (c : Char) : Bool :=
  '0'.toNat ≤ c.toNat && c.toNat ≤ '9'.toNat

/-! ## Money formatting

Models the `f"${amount:.2f}"` rendering used by the payment code: the
amount rounded to cents (ties to even, as float formatting does) and shown
with exactly two decimals. -/

def roundCentsHalfEven (q : ℚ) : ℤ :=
  let x : ℚ := q * 100
  let f : ℤ := ⌊x⌋
  let r : ℚ := x - (f : ℚ)
  if r < 1/2 then f
  else if 1/2 < r then f + 1
  else if f % 2 = 0 then f else f + 1

def pad2 (m : ℕ) : String :=
  if m < 10 then "0" ++ toString m else toString m

def formatAmount (q : ℚ) : String :=
  let n := roundCentsHalfEven q
  let sign := if n < 0 then "-" else ""
  sign ++ toString (n.natAbs / 100) ++ "." ++ pad2 (n.natAbs % 100)

/-! ## `payment.py`: PaymentMethod, CreditCard, PayPal -/

/-- One entry of `transaction_history`:
`{"type": ..., "amount": ..., "receipt": ...}`. -/
structure TransactionRecord where
  ttype : String
  amount : ℚ
  receipt : String
  deriving DecidableEq, Repr

/-- State of the `PaymentMethod` base class.  `receipt_counter` is the
injected deterministic stand-in for the `uuid.uuid4` supply used by
`generate_receipt_id`. -/
structure PaymentMethodState where
  method_name : String
  transaction_history : List TransactionRecord
  is_valid : Bool
  receipt_counter : ℕ
  deriving DecidableEq, Repr

/-- `PaymentMethod.__init__(method_name)`. -/
def mkPaymentMethod (name : String) : PaymentMethodState :=
  { method_name := name, transaction_history := [], is_valid := true,
    receipt_counter := 0 }

/-- `PaymentMethod.generate_receipt_id`: returns a fresh unique id
(`str(uuid.uuid4())` modelled by a counter-backed supply). -/
def PaymentMethodState.generate_receipt_id (pm : PaymentMethodState) :
    String × PaymentMethodState :=
  ("uuid-" ++ toString pm.receipt_counter,
   { pm with receipt_counter := pm.receipt_counter + 1 })

/-- `PaymentMethod.refund(amount)`: unconditionally appends a refund record
and returns the confirmation string. -/
def PaymentMethodState.refund (pm : PaymentMethodState) (amount : ℚ) :
    String × PaymentMethodState :=
  let p := pm.generate_receipt_id
  let pm2 := { p.2 with transaction_history :=
    p.2.transaction_history ++ [⟨"refund", amount, p.1⟩] }
  ("Refund of $" ++ formatAmount amount ++ " issued. Receipt ID: " ++ p.1, pm2)

/-- `CreditCard.validate_card`:
`bool(re.fullmatch(r"\d{13,19}", self.card_number))`. -/
def validate_card (card_number : String) : Bool :=
  let cs := card_number.toList
  13 ≤ cs.length && cs.length ≤ 19 && cs.all isPyDigit

structure CreditCard extends PaymentMethodState where
  card_number : String
  holder_name : String
  deriving DecidableEq, Repr

/-- `CreditCard.__init__(card_number, holder_name)`. -/
def mkCreditCard (card_number holder_name : String) : CreditCard :=
  { mkPaymentMethod "Credit Card" with
    card_number := card_number, holder_name := holder_name,
    is_valid := validate_card card_number }

/-- `CreditCard.process_payment(amount)`. -/
def CreditCard.process_payment (cc : CreditCard) (amount : ℚ) :
    Bool × CreditCard :=
  if !cc.is_valid then (false, cc)
  else
    let p := cc.toPaymentMethodState.generate_receipt_id
    (true, { cc with toPaymentMethodState :=
      { p.2 with transaction_history :=
        p.2.transaction_history ++ [⟨"payment", amount, p.1⟩] } })

/-! `[^@]+@[^@]+\.[^@]+` and `[^@\s]+@[^@\s]+\.[^@\s]+` share the shape
`P+ '@' P+ '.' P+` for a character class `P`; the matcher below is
parameterized by `P`. -/

/-- Does `l` decompose as `b ++ '.' :: c` with `c ≠ []`?  Used for the
`P+\.P+` tail of the e-mail regexes (the dot may not be last). -/
def dotNotLast : List Char → Bool
  | [] => false
  | c :: rest => !rest.isEmpty && (c == '.' || dotNotLast rest)

/-- Does `l` decompose as `b ++ '.' :: c` with `b ≠ []` and `c ≠ []`? -/
def hasInteriorDot : List Char → Bool
  | [] => false
  | _ :: rest => dotNotLast rest

/-- Full match of `P+@P+\.P+` where `P` is a character class that never
contains `'@'` (both e-mail regexes of the repository have this shape;
`'.'` is in `P` for both). -/
def matchesEmailShape (P : Char → Bool) (cs : List Char) : Bool :=
  match cs.dropWhile P with
  | [] => false
  | mid :: domain =>
      mid == '@' && !(cs.takeWhile P).isEmpty && domain.all P &&
        hasInteriorDot domain

/-- `PayPal.validate_email`:
`bool(re.fullmatch(r"[^@]+@[^@]+\.[^@]+", self.email))`. -/
def validate_email (email : String) : Bool :=
  matchesEmailShape (fun c => c != '@') email.toList

structure PayPal extends PaymentMethodState where
  email : String
  deriving DecidableEq, Repr

/-- `PayPal.__init__(email)`. -/
def mkPayPal (email : String) : PayPal :=
  { mkPaymentMethod "PayPal" with
    email := email, is_valid := validate_email email }

/-- `PayPal.process_payment(amount)`. -/
def PayPal.process_payment (pp : PayPal) (amount : ℚ) : Bool × PayPal :=
  if !pp.is_valid then (false, pp)
  else
    let p := pp.toPaymentMethodState.generate_receipt_id
    (true, { pp with toPaymentMethodState :=
      { p.2 with transaction_history :=
        p.2.transaction_history ++ [⟨"payment", amount, p.1⟩] } })

/-- A payment instrument: the polymorphic `PaymentMethod` argument that the
checkout flow dispatches on. -/
inductive Instrument where
  | credit : CreditCard → Instrument
  | paypal : PayPal → Instrument
  deriving DecidableEq, Repr

def Instrument.base : Instrument → PaymentMethodState
  | credit cc => cc.toPaymentMethodState
  | paypal pp => pp.toPaymentMethodState

def Instrument.is_valid (i : Instrument) : Bool := i.base.is_valid

def Instrument.history (i : Instrument) : List TransactionRecord :=
  i.base.transaction_history

/-- Virtual dispatch of `process_payment`. -/
def Instrument.process_payment : Instrument → ℚ → Bool × Instrument
  | credit cc, amount =>
      let p := cc.process_payment amount; (p.1, credit p.2)
  | paypal pp, amount =>
      let p := pp.process_payment amount; (p.1, paypal p.2)

/-- `refund` is inherited unchanged from the base class by both variants. -/
def Instrument.refund : Instrument → ℚ → String × Instrument
  | credit cc, amount =>
      let p := cc.toPaymentMethodState.refund amount
      (p.1, credit { cc with toPaymentMethodState := p.2 })
  | paypal pp, amount =>
      let p := pp.toPaymentMethodState.refund amount
      (p.1, paypal { pp with toPaymentMethodState := p.2 })

/-! ## Hex encoding (`bytes.hex` / `bytes.fromhex`) and UTF-8 -/

/-- Value of a hexadecimal digit character (`0` on non-hex input, which the
development only ever applies to strings produced by `bytesHex`). -/
def hexVal (c : Char) : ℕ :=
  if '0' ≤ c ∧ c ≤ '9' then c.toNat - '0'.toNat
  else if 'a' ≤ c ∧ c ≤ 'f' then c.toNat - 'a'.toNat + 10
  else if 'A' ≤ c ∧ c ≤ 'F' then c.toNat - 'A'.toNat + 10
  else 0

def hexDigitChr (n : ℕ) : Char :=
  if n < 10 then Char.ofNat ('0'.toNat + n)
  else Char.ofNat ('a'.toNat + n - 10)

def hexEncodeBytes : List (Fin 256) → List Char
  | [] => []
  | b :: rest =>
      hexDigitChr (b.val / 16) :: hexDigitChr (b.val % 16) :: hexEncodeBytes rest

/-- `bytes.hex()`: lowercase hex rendering. -/
def bytesHex (bs : Bytes) : String := ⟨hexEncodeBytes bs⟩

def hexDecodeChars : List Char → List (Fin 256)
  | h :: l :: rest =>
      ⟨(hexVal h * 16 + hexVal l) % 256, Nat.mod_lt _ (by norm_num)⟩ ::
        hexDecodeChars rest
  | _ => []

/-- `bytes.fromhex(s)` on well-formed even-length hex strings (the only
ones the model stores). -/
def bytesFromHex (s : String) : Bytes := hexDecodeChars s.toList

/-- UTF-8 encoding of one code point (`str.encode("utf-8")`, per
character). -/
def utf8EncodeChar (c : Char) : List (Fin 256) :=
  let n := c.toNat
  let byte : ℕ → Fin 256 := fun k => ⟨k % 256, Nat.mod_lt _ (by norm_num)⟩
  if n < 0x80 then [byte n]
  else if n < 0x800 then [byte (0xC0 + n / 64), byte (0x80 + n % 64)]
  else if n < 0x10000 then
    [byte (0xE0 + n / 4096), byte (0x80 + n / 64 % 64), byte (0x80 + n % 64)]
  else
    [byte (0xF0 + n / 262144), byte (0x80 + n / 4096 % 64),
     byte (0x80 + n / 64 % 64), byte (0x80 + n % 64)]

/-- `plain.encode("utf-8")`. -/
def utf8Encode (s : String) : Bytes :=
  s.toList.flatMap utf8EncodeChar

/-- Stands in for `hashlib.sha256(data).hexdigest()`, an external library
function: a fixed deterministic digest of the input bytes.  Everything
proved below uses only that the digest is a deterministic function of the
bytes hashed. -/
def hashDigest (data : Bytes) : String :=
  toString (List.foldl (fun a b => (a * 257 + b.val + 1) % 1000000007) 7 data)

/-! ## `person.py`: `_hash_password`, Person, User -/

/-- `_hash_password(plain, salt=None)`.  `fresh` is the injected
`os.urandom(16)` draw, consumed only when `salt` is absent or empty
(Python's `salt or os.urandom(16)` treats empty bytes as absent). -/
def hash_password (plain : String) (salt : Option Bytes) (fresh : Bytes) :
    String × String :=
  let s := match salt with
    | none => fresh
    | some b => if b = ([] : List (Fin 256)) then fresh else b
  (bytesHex s, hashDigest (s ++ utf8Encode plain))

/-- Python `\s` restricted to its ASCII members (no claim probes the
non-ASCII whitespace code points). -/
def isPySpace (c : Char) : Bool :=
  c == ' ' || c == '\t' || c == '\n' || c == '\r' || c == '\x0b' || c == '\x0c'

/-- `str.strip()`: remove leading and trailing whitespace. -/
def pyStrip (s : String) : String :=
  ⟨(s.toList.dropWhile isPySpace).reverse.dropWhile isPySpace |>.reverse⟩

/-- `str.lower()` restricted to the ASCII case mapping (no claim probes
non-ASCII cased letters). -/
def pyLower (s : String) : String :=
  ⟨s.toList.map fun c =>
    if 'A' ≤ c ∧ c ≤ 'Z' then Char.ofNat (c.toNat + 32) else c⟩

/-- `EMAIL_RE.fullmatch`: `^[^@\s]+@[^@\s]+\.[^@\s]+$`. -/
def emailReFullmatch (s : String) : Bool :=
  matchesEmailShape (fun c => c != '@' && !isPySpace c) s.toList

/-! ### The shopping-cart collaborator (`shopping.py`, absent from `src/`) -/

/-- Modelled from the spec: the catalog `Candy` item (`candy.py`, absent
from `src/`) — a stable identity, a non-negative price the core reads, and
a quantity field the core does not touch during checkout. -/
structure Candy where
  candy_id : ℕ
  price : ℚ
  quantity : ℤ
  deriving DecidableEq, Repr

/-- Modelled from the spec: a cart line `{item, quantity}` with the
invariant `quantity > 0` enforced at insertion. -/
structure CartLine where
  item : Candy
  quantity : ℤ
  deriving DecidableEq, Repr

/-- Modelled from the spec: `ShoppingCart` of
`keanus_candy/models/shopping.py` (not under `src/`): a mapping from
item identity to line, insertion-ordered. -/
structure ShoppingCart where
  lines : List CartLine
  deriving DecidableEq, Repr

/-- Modelled from the spec: `ShoppingCart.add_item(item, quantity)` —
fails with `ValidationError` if `quantity ≤ 0`; merges quantities when the
item already has a line, else appends a new line. -/
def ShoppingCart.add_item (c : ShoppingCart) (item : Candy) (q : ℤ) :
    Except PyError ShoppingCart :=
  if q ≤ 0 then .error (.valueError "Quantity must be positive")
  else if c.lines.any (fun l => l.item.candy_id == item.candy_id) then
    .ok { lines := c.lines.map fun l =>
      if l.item.candy_id == item.candy_id then
        { l with quantity := l.quantity + q } else l }
  else .ok { lines := c.lines ++ [⟨item, q⟩] }

/-- Modelled from the spec: `ShoppingCart.is_empty()` — true iff no line
with positive quantity exists. -/
def ShoppingCart.is_empty (c : ShoppingCart) : Bool :=
  !c.lines.any (fun l => 0 < l.quantity)

/-- Modelled from the spec: `Order` — immutable snapshot of the purchased
lines, the total, and the payment outcome stamped once at creation. -/
structure Order where
  total_amount : ℚ
  order_lines : List CartLine
  payment_ok : Bool
  deriving DecidableEq, Repr

/-- Modelled from the spec: `ShoppingCart.create_order(payment_method)` —
total = Σ price·quantity over the lines, snapshot the lines, run
`processPayment(total)` and stamp the boolean outcome; the order is
returned whether or not the payment succeeded. -/
def ShoppingCart.create_order (c : ShoppingCart) (pm : Instrument) :
    Order × Instrument :=
  let total := (c.lines.map fun l => l.item.price * (l.quantity : ℚ)).sum
  let p := pm.process_payment total
  ({ total_amount := total, order_lines := c.lines, payment_ok := p.1 }, p.2)

/-- Modelled from the spec: `ShoppingCart.clear()` — removes all lines;
the cart object remains usable. -/
def ShoppingCart.clear (_c : ShoppingCart) : ShoppingCart := { lines := [] }

/-- `User` state (the `Person` base fields inlined, then the fields
`User.__init__` adds). -/
structure User where
  person_id : ℤ
  name : String
  email : String
  created_at : ℕ
  status : String
  pw_salt : String
  pw_digest : String
  orders : List Order
  cart : Option ShoppingCart
  last_login_at : Option ℕ
  deriving DecidableEq, Repr

/-- `User.__init__(user_id, name, email, password)`.  `now` is the clock
reading for `created_at`, `freshSalt` the injected `os.urandom(16)` draw;
raises `ValueError` when the e-mail fails `EMAIL_RE`. -/
def mkUser (user_id : ℤ) (name email password : String) (now : ℕ)
    (freshSalt : Bytes) : Except PyError User :=
  if !emailReFullmatch email then .error (.valueError "Invalid email address")
  else
    let h := hash_password password none freshSalt
    .ok { person_id := user_id, name := pyStrip name,
          email := pyLower (pyStrip email), created_at := now,
          status := "active", pw_salt := h.1, pw_digest := h.2,
          orders := [], cart := none, last_login_at := none }

/-- `User.verify_password(password)`: recompute the digest with the stored
salt and compare.  The `fresh` draw inside `_hash_password` is only
reachable when the stored salt decodes to empty bytes, which no state
built by this model produces, so it is passed as `[]`. -/
def User.verify_password (u : User) (password : String) : Bool :=
  let salt := bytesFromHex u.pw_salt
  (hash_password password (some salt) []).2 == u.pw_digest

/-- `User.set_password(new_password)`: rejects lengths `< 6`, otherwise
replaces salt and digest. -/
def User.set_password (u : User) (new_password : String) (freshSalt : Bytes) :
    Except PyError Unit × User :=
  if new_password.length < 6 then
    (.error (.valueError "Password must be at least 6 characters"), u)
  else
    let h := hash_password new_password none freshSalt
    (.ok (), { u with pw_salt := h.1, pw_digest := h.2 })

/-- `User.login(email, password)`: normalized-e-mail match and password
verification; stamps `last_login_at` on success only. -/
def User.login (u : User) (email password : String) (now : ℕ) :
    Bool × User :=
  let ok := u.email == pyLower (pyStrip email) && u.verify_password password
  if ok then (true, { u with last_login_at := some now }) else (false, u)

/-- `User._ensure_cart()`. -/
def User.ensure_cart (u : User) : ShoppingCart × User :=
  match u.cart with
  | none => let c : ShoppingCart := { lines := [] }; (c, { u with cart := some c })
  | some c => (c, u)

/-- `User.add_to_cart(candy, quantity)`: rejects `quantity ≤ 0` before the
cart is even materialized, else delegates to `ShoppingCart.add_item`. -/
def User.add_to_cart (u : User) (candy : Candy) (quantity : ℤ) :
    Except PyError Unit × User :=
  if quantity ≤ 0 then (.error (.valueError "Item must be in stock"), u)
  else
    let p := u.ensure_cart
    match p.1.add_item candy quantity with
    | .error e => (.error e, u)
    | .ok c2 => (.ok (), { p.2 with cart := some c2 })

/-- `User.checkout(payment_method)`: guard on absent/empty cart, then
create the order, append it to the history, clear the cart and return
it. -/
def User.checkout (u : User) (pm : Instrument) :
    Except PyError Order × User × Instrument :=
  match u.cart with
  | none => (.error (.valueError "Cart is empty"), u, pm)
  | some c =>
      if c.is_empty then (.error (.valueError "Cart is empty"), u, pm)
      else
        let p := c.create_order pm
        (.ok p.1,
         { u with orders := u.orders ++ [p.1], cart := some c.clear }, p.2)

/-! ## Statements taken from the specification's words, for comparison -/

/-- The claimed e-mail validity pattern (claim C5): the string has the shape
`local@domain.tld` — a nonempty local part, one `'@'`, and a domain part
split by a `'.'` into nonempty pieces, no `'@'` embedded anywhere. -/
def specEmailPattern (s : String) : Prop :=
  ∃ lp dp tp : List Char,
    s.toList = lp ++ '@' :: (dp ++ '.' :: tp) ∧
    lp ≠ [] ∧ dp ≠ [] ∧ tp ≠ [] ∧ '@' ∉ lp ∧ '@' ∉ dp ∧ '@' ∉ tp

/-- The claimed card-validity criterion (claim C4): exactly 13 to 19
ASCII digits, no separators. -/
def asciiDigitCard (s : String) : Bool :=
  13 ≤ s.length && s.length ≤ 19 && s.toList.all isAsciiDigit

/-- A card number of 13 Arabic-Indic digits (U+0660), each matched by the
source regex's `\d` but not an ASCII digit. -/
def arabicCardNumber : String := ⟨List.replicate 13 (Char.ofNat 0x660)⟩

/-! ## Concrete sample values used by the witnesses -/

def sampleSalt : Bytes := [⟨0xab, by norm_num⟩, ⟨0x01, by norm_num⟩]

def sampleUser : User :=
  { person_id := 1, name := "Trinity", email := "a@b.co", created_at := 0,
    status := "active", pw_salt := bytesHex sampleSalt,
    pw_digest := hashDigest (sampleSalt ++ utf8Encode "secret1"),
    orders := [], cart := none, last_login_at := none }

def sampleCandy : Candy := { candy_id := 1, price := 5/2, quantity := 10 }

def filledCart : ShoppingCart :=
  { lines := [{ item := sampleCandy, quantity := 4 }] }

def filledUser : User := { sampleUser with cart := some filledCart }

def sampleCard : CreditCard := mkCreditCard "1234567890123456" "Keanu"

def badCard : CreditCard := mkCreditCard "12" "Keanu"

/-! ## Helper lemmas -/

theorem hexVal_hexDigitChr : ∀ d : Fin 16, hexVal (hexDigitChr d.val) = d.val := by
  decide

theorem hexDecode_hexEncode (bs : List (Fin 256)) :
    hexDecodeChars (hexEncodeBytes bs) = bs := by
  induction bs with
  | nil => rfl
  | cons b rest ih =>
    have h1 : hexVal (hexDigitChr (b.val / 16)) = b.val / 16 :=
      hexVal_hexDigitChr ⟨b.val / 16, by omega⟩
    have h2 : hexVal (hexDigitChr (b.val % 16)) = b.val % 16 :=
      hexVal_hexDigitChr ⟨b.val % 16, by omega⟩
    have hb := b.isLt
    have hmod : (b.val / 16 * 16 + b.val % 16) % 256 = b.val := by omega
    simp [hexEncodeBytes, hexDecodeChars, h1, h2, ih, Fin.ext_iff, hmod]

theorem dropWhile_head_false {P : Char → Bool} :
    ∀ (l : List Char) (y : Char) (r : List Char),
      l.dropWhile P = y :: r → P y = false := by
  intro l
  induction l with
  | nil => intro y r h; simp [List.dropWhile] at h
  | cons c cs ih =>
    intro y r h
    by_cases hc : P c = true
    · exact ih y r (by simpa [List.dropWhile_cons, hc] using h)
    · rw [List.dropWhile_cons] at h
      rw [Bool.not_eq_true] at hc
      rw [hc] at h
      simp at h
      rw [← h.1]
      exact hc

theorem takeWhile_all_append {P : Char → Bool} :
    ∀ (a : List Char) (y : Char) (l : List Char),
      (∀ x ∈ a, P x = true) → P y = false →
      (a ++ y :: l).takeWhile P = a ∧ (a ++ y :: l).dropWhile P = y :: l := by
  intro a
  induction a with
  | nil =>
    intro y l _ hy
    simp [List.takeWhile_cons, List.dropWhile_cons, hy]
  | cons c cs ih =>
    intro y l h hy
    have hc : P c = true := h c (by simp)
    have hrest := ih y l (fun x hx => h x (by simp [hx])) hy
    simp [List.takeWhile_cons, List.dropWhile_cons, hc, hrest.1, hrest.2]

theorem dotNotLast_iff (l : List Char) :
    dotNotLast l = true ↔ ∃ b c, l = b ++ '.' :: c ∧ c ≠ [] := by
  induction l with
  | nil =>
    constructor
    · intro h; exact absurd h (by simp [dotNotLast])
    · rintro ⟨b, c, h, -⟩; exact absurd h (by simp)
  | cons x rest ih =>
    constructor
    · intro h
      rw [dotNotLast, Bool.and_eq_true, Bool.or_eq_true] at h
      obtain ⟨hne, hor⟩ := h
      have hrest : rest ≠ [] := by
        intro hr; rw [hr] at hne; exact absurd hne (by simp)
      rcases hor with hx | hrec
      · exact ⟨[], rest, by simp [beq_iff_eq.mp hx], hrest⟩
      · obtain ⟨b, c, hbc, hc⟩ := ih.mp hrec
        exact ⟨x :: b, c, by simp [hbc], hc⟩
    · rintro ⟨b, c, hbc, hc⟩
      obtain ⟨c0, cs, rfl⟩ := List.exists_cons_of_ne_nil hc
      rw [dotNotLast, Bool.and_eq_true, Bool.or_eq_true]
      cases b with
      | nil =>
        simp only [List.nil_append, List.cons.injEq] at hbc
        obtain ⟨hx, hrest⟩ := hbc
        subst hx; subst hrest
        exact ⟨by simp, Or.inl (by simp)⟩
      | cons b0 bs =>
        simp only [List.cons_append, List.cons.injEq] at hbc
        obtain ⟨hx, hrest⟩ := hbc
        refine ⟨?_, Or.inr (ih.mpr ⟨bs, c0 :: cs, hrest, by simp⟩)⟩
        rw [hrest]; simp

theorem hasInteriorDot_iff (l : List Char) :
    hasInteriorDot l = true ↔ ∃ b c, l = b ++ '.' :: c ∧ b ≠ [] ∧ c ≠ [] := by
  cases l with
  | nil =>
    simp only [hasInteriorDot]
    constructor
    · intro h; cases h
    · rintro ⟨b, c, h, -, -⟩; exact absurd h (by simp)
  | cons x rest =>
    rw [hasInteriorDot, dotNotLast_iff]
    constructor
    · rintro ⟨b, c, hbc, hc⟩
      exact ⟨x :: b, c, by simp [hbc], by simp, hc⟩
    · rintro ⟨b, c, hbc, hb, hc⟩
      cases b with
      | nil => exact absurd rfl hb
      | cons b0 bs =>
        simp at hbc
        exact ⟨bs, c, hbc.2, hc⟩

theorem matchesEmailShape_atSign_iff (cs : List Char) :
    matchesEmailShape (fun c => c != '@') cs = true ↔
      ∃ lp dp tp : List Char,
        cs = lp ++ '@' :: (dp ++ '.' :: tp) ∧
        lp ≠ [] ∧ dp ≠ [] ∧ tp ≠ [] ∧ '@' ∉ lp ∧ '@' ∉ dp ∧ '@' ∉ tp := by
  constructor
  · intro h
    rw [matchesEmailShape] at h
    rcases hd : cs.dropWhile (fun c => c != '@') with _ | ⟨mid, domain⟩
    · rw [hd] at h; exact absurd h (by simp)
    · rw [hd] at h
      simp only [Bool.and_eq_true] at h
      obtain ⟨⟨⟨hmid, hlp⟩, hall⟩, hdot⟩ := h
      have hmid2 : mid = '@' := beq_iff_eq.mp hmid
      have hsplit : cs.takeWhile (fun c => c != '@') ++ mid :: domain = cs := by
        rw [← hd]; exact List.takeWhile_append_dropWhile _ cs
      obtain ⟨dp, tp, hdomain, hdp, htp⟩ := (hasInteriorDot_iff domain).mp hdot
      have hallAt : '@' ∉ domain := by
        intro hmem
        have := List.all_eq_true.mp hall '@' hmem
        simp at this
      refine ⟨cs.takeWhile (fun c => c != '@'), dp, tp, ?_, ?_, hdp, htp,
        ?_, ?_, ?_⟩
      · conv_lhs => rw [← hsplit]
        rw [hmid2, hdomain]
      · intro hnil; rw [hnil] at hlp; exact absurd hlp (by simp)
      · intro hmem
        have := List.mem_takeWhile_imp hmem
        simp at this
      · intro hmem
        exact hallAt (by rw [hdomain]; exact List.mem_append_left _ hmem)
      · intro hmem
        exact hallAt
          (by rw [hdomain]; exact List.mem_append_right _ (List.mem_cons_of_mem _ hmem))
  · rintro ⟨lp, dp, tp, rfl, hlp, hdp, htp, hlpA, hdpA, htpA⟩
    have hPlp : ∀ x ∈ lp, (x != '@') = true := by
      intro x hx
      simp only [bne_iff_ne, ne_eq]
      intro hxe; exact hlpA (hxe ▸ hx)
    have hPat : ('@' != '@') = false := by simp
    obtain ⟨htw, hdw⟩ :=
      takeWhile_all_append lp '@' (dp ++ '.' :: tp) hPlp hPat
    rw [matchesEmailShape, hdw, htw]
    simp only [Bool.and_eq_true]
    refine ⟨⟨⟨by simp, by simpa [List.isEmpty_iff] using hlp⟩, ?_⟩, ?_⟩
    · rw [List.all_eq_true]
      intro x hx
      simp only [bne_iff_ne, ne_eq]
      rcases List.mem_append.mp hx with hmem | hmem
      · intro hxe; exact hdpA (hxe ▸ hmem)
      · rcases List.mem_cons.mp hmem with hxe | hmem2
        · rw [hxe]; decide
        · intro hxe; exact htpA (hxe ▸ hmem2)
    · exact (hasInteriorDot_iff _).mpr ⟨dp, tp, rfl, hdp, htp⟩

/-! ## The claims -/

/-- C1: `checkout(user, paymentMethod)` fails with `EmptyCartError`
(realized as `ValueError "Cart is empty"`) when the user's cart is absent
or empty, creating no order and leaving the user — order history included —
untouched; otherwise it creates the order from the cart, appends it to the
order history and clears the cart in the same step, and returns it. -/
theorem checkout_empty_guard_and_transaction (u : User) (pm : Instrument) :
    ((u.cart = none ∨ ∃ c, u.cart = some c ∧ c.is_empty = true) →
      u.checkout pm = (.error (.valueError "Cart is empty"), u, pm)) ∧
    (∀ c, u.cart = some c → c.is_empty = false →
      u.checkout pm =
        (.ok (c.create_order pm).1,
         { u with orders := u.orders ++ [(c.create_order pm).1],
                  cart := some c.clear },
         (c.create_order pm).2)) := by
  constructor
  · rintro (hnone | ⟨c, hc, he⟩)
    · simp [User.checkout, hnone]
    · simp [User.checkout, hc, he]
  · intro c hc hne
    simp [User.checkout, hc, hne]

/-- Witness for C1: a user with no cart is rejected with the empty-cart
error and left unchanged; a user with a non-empty cart gets the order the
cart creates. -/
theorem checkout_empty_guard_and_transaction_witness :
    sampleUser.checkout (.credit sampleCard) =
      (.error (.valueError "Cart is empty"), sampleUser, .credit sampleCard) ∧
    (filledUser.checkout (.credit sampleCard)).1 =
      .ok (filledCart.create_order (.credit sampleCard)).1 := by
  constructor
  · exact (checkout_empty_guard_and_transaction sampleUser
      (.credit sampleCard)).1 (Or.inl rfl)
  · rw [(checkout_empty_guard_and_transaction filledUser
      (.credit sampleCard)).2 filledCart rfl (by decide)]

/-- C2: for either instrument and any amount, `process_payment` on an
invalid instrument returns `False` and leaves everything unchanged, while
on a valid instrument it returns `True` and appends exactly one `payment`
record carrying the receipt id the supply freshly generates. -/
theorem process_payment_validity_contract (i : Instrument) (amount : ℚ) :
    (i.is_valid = false → i.process_payment amount = (false, i)) ∧
    (i.is_valid = true →
      (i.process_payment amount).1 = true ∧
      (i.process_payment amount).2.history =
        i.history ++ [⟨"payment", amount, (i.base.generate_receipt_id).1⟩]) := by
  cases i with
  | credit cc =>
    constructor
    · intro h
      simp [Instrument.process_payment, CreditCard.process_payment,
        Instrument.is_valid, Instrument.base] at h ⊢
      simp [h]
    · intro h
      simp [Instrument.is_valid, Instrument.base] at h
      simp [Instrument.process_payment, CreditCard.process_payment, h,
        Instrument.history, Instrument.base,
        PaymentMethodState.generate_receipt_id]
  | paypal pp =>
    constructor
    · intro h
      simp [Instrument.process_payment, PayPal.process_payment,
        Instrument.is_valid, Instrument.base] at h ⊢
      simp [h]
    · intro h
      simp [Instrument.is_valid, Instrument.base] at h
      simp [Instrument.process_payment, PayPal.process_payment, h,
        Instrument.history, Instrument.base,
        PaymentMethodState.generate_receipt_id]

/-- Witness for C2: a card of 2 digits is invalid and its payment attempt
is a no-op returning `False`; a 16-digit card's payment returns `True`. -/
theorem process_payment_validity_contract_witness :
    (Instrument.credit badCard).process_payment 5 =
      (false, Instrument.credit badCard) ∧
    ((Instrument.credit sampleCard).process_payment 5).1 = true := by
  constructor
  · exact (process_payment_validity_contract (.credit badCard) 5).1 (by decide)
  · exact ((process_payment_validity_contract (.credit sampleCard) 5).2
      (by decide)).1

/-- C3: for either instrument — valid or not — and any amount, `refund`
appends exactly one `refund` record carrying the freshly generated receipt
id, and returns a string containing the formatted amount and that id. -/
theorem refund_unconditional (i : Instrument) (amount : ℚ) :
    (i.refund amount).2.history =
      i.history ++ [⟨"refund", amount, (i.base.generate_receipt_id).1⟩] ∧
    (∃ pre post, (i.refund amount).1 =
      pre ++ formatAmount amount ++ post) ∧
    (∃ pre, (i.refund amount).1 =
      pre ++ (i.base.generate_receipt_id).1) := by
  refine ⟨?_, ⟨"Refund of $",
    " issued. Receipt ID: " ++ (i.base.generate_receipt_id).1, ?_⟩,
    ⟨"Refund of $" ++ formatAmount amount ++ " issued. Receipt ID: ", ?_⟩⟩ <;>
    cases i <;>
      simp [Instrument.refund, Instrument.history, Instrument.base,
        PaymentMethodState.refund, PaymentMethodState.generate_receipt_id,
        String.append_assoc]

/-- C4 counterexample: a card number of 13 Arabic-Indic digits is accepted
by `validate_card` (Python's `\d` matches any Unicode decimal digit), yet
it does not consist of ASCII digits, refuting "valid exactly when the card
number consists of 13 to 19 ASCII digits". -/
theorem card_validity_not_ascii_counterexample :
    (mkCreditCard arabicCardNumber "Neo").is_valid = true ∧
    asciiDigitCard arabicCardNumber = false := by decide

/-- C4 amended: a CreditCard is valid exactly when its card number is 13
to 19 Unicode decimal digits (category Nd — what Python's `\d` matches),
with no separators; in particular a 16-digit ASCII numeric string is
valid, while 12 digits, 20 digits, or strings containing letters are
invalid. -/
theorem card_validity_unicode_digits :
    (∀ num holder : String, (mkCreditCard num holder).is_valid = true ↔
      (13 ≤ num.length ∧ num.length ≤ 19 ∧
        ∀ c ∈ num.toList, isPyDigit c = true)) ∧
    (mkCreditCard "1234567890123456" "A").is_valid = true ∧
    (mkCreditCard "123456789012" "A").is_valid = false ∧
    (mkCreditCard "12345678901234567890" "A").is_valid = false ∧
    (mkCreditCard "1234567890123a56" "A").is_valid = false := by
  refine ⟨?_, by decide, by decide, by decide, by decide⟩
  intro num holder
  show validate_card num = true ↔ _
  constructor
  · intro h
    simp only [validate_card, Bool.and_eq_true, decide_eq_true_eq,
      List.all_eq_true] at h
    exact ⟨h.1.1, h.1.2, h.2⟩
  · rintro ⟨h1, h2, h3⟩
    simp only [validate_card, Bool.and_eq_true, decide_eq_true_eq,
      List.all_eq_true]
    exact ⟨⟨h1, h2⟩, h3⟩

/-- C5: a PayPal instrument is valid exactly when its e-mail has the shape
`local@domain.tld` — nonempty local part, a single `'@'`, and the domain
part containing a `'.'` with nonempty pieces around it, no `'@'` embedded
in any part; the claim's four sample inputs behave as stated. -/
theorem paypal_validity_email_pattern :
    (∀ s : String, (mkPayPal s).is_valid = true ↔ specEmailPattern s) ∧
    (mkPayPal "a@b.co").is_valid = true ∧
    (mkPayPal "a@@b.co").is_valid = false ∧
    (mkPayPal "ab.co").is_valid = false ∧
    (mkPayPal "a@b").is_valid = false := by
  refine ⟨?_, by decide, by decide, by decide, by decide⟩
  intro s
  show validate_email s = true ↔ _
  rw [validate_email, matchesEmailShape_atSign_iff]
  rfl

/-- C6: `add_to_cart` with a non-positive quantity fails with
`ValidationError` (realized as `ValueError "Item must be in stock"`) and
returns the user unchanged — in particular the cart, and hence its line
count, is untouched, and no cart is created when none existed. -/
theorem add_to_cart_nonpositive_rejected (u : User) (candy : Candy) (q : ℤ)
    (h : q ≤ 0) :
    u.add_to_cart candy q =
      (.error (.valueError "Item must be in stock"), u) := by
  simp [User.add_to_cart, h]

/-- Witness for C6: quantity `0` is rejected and the cartless sample user
is returned with still no cart. -/
theorem add_to_cart_nonpositive_rejected_witness :
    sampleUser.add_to_cart sampleCandy 0 =
      (.error (.valueError "Item must be in stock"), sampleUser) ∧
    sampleUser.cart = none :=
  ⟨add_to_cart_nonpositive_rejected sampleUser sampleCandy 0 (by decide), rfl⟩

/-- C7: `set_password` rejects any new password shorter than 6 characters
with `ValidationError` (realized as `ValueError`), leaving the stored salt
and digest (and the whole user) unchanged; for length ≥ 6 it succeeds and
replaces salt and digest together in one state transition, touching
nothing else. -/
theorem set_password_length_guard (u : User) (p : String) (fresh : Bytes) :
    (p.length < 6 → u.set_password p fresh =
      (.error (.valueError "Password must be at least 6 characters"), u)) ∧
    (6 ≤ p.length →
      u.set_password p fresh =
        (.ok (),
         { u with pw_salt := (hash_password p none fresh).1,
                  pw_digest := (hash_password p none fresh).2 })) := by
  constructor
  · intro h; simp [User.set_password, h]
  · intro h
    have h2 : ¬ p.length < 6 := by omega
    simp [User.set_password, h2]

/-- Witness for C7: a 3-character password is rejected and the user is
unchanged; a 7-character password is accepted. -/
theorem set_password_length_guard_witness :
    sampleUser.set_password "abc" sampleSalt =
      (.error (.valueError "Password must be at least 6 characters"),
       sampleUser) ∧
    (sampleUser.set_password "secret2" sampleSalt).1 = .ok () := by
  constructor
  · exact (set_password_length_guard sampleUser "abc" sampleSalt).1 (by decide)
  · rw [(set_password_length_guard sampleUser "secret2" sampleSalt).2
      (by decide)]

/-- C8: `verify_password` run with the same plaintext right after
`set_password` succeeds — the digest is recomputed deterministically from
the stored (hex round-tripped) salt and the plaintext — and any plaintext
whose recomputed digest differs from the stored digest is rejected.  The
`fresh ≠ []` hypothesis keeps the injected `os.urandom(16)` draw inside
the region where the model is faithful (Python's `salt or os.urandom(16)`
would re-randomize on empty stored bytes). -/
theorem verify_after_set_password :
    (∀ (u : User) (p : String) (fresh : Bytes), fresh ≠ [] → 6 ≤ p.length →
      (u.set_password p fresh).2.verify_password p = true) ∧
    (∀ (u : User) (p : String),
      (hash_password p (some (bytesFromHex u.pw_salt)) []).2 ≠ u.pw_digest →
      u.verify_password p = false) := by
  constructor
  · intro u p fresh hf hlen
    have h2 : ¬ p.length < 6 := by omega
    have hrt : bytesFromHex (bytesHex fresh) = fresh := by
      simpa [bytesFromHex, bytesHex] using hexDecode_hexEncode fresh
    simp [User.set_password, h2, User.verify_password, hash_password, hrt, hf]
  · intro u p h
    simp only [User.verify_password]
    exact beq_eq_false_iff_ne.mpr h

/-- Witness for C8: after setting `"newpass1"` the same plaintext
verifies, and a plaintext with a different digest is rejected. -/
theorem verify_after_set_password_witness :
    (sampleUser.set_password "newpass1" sampleSalt).2.verify_password
      "newpass1" = true ∧
    sampleUser.verify_password "wrongpw" = false := by
  constructor
  · exact verify_after_set_password.1 sampleUser "newpass1" sampleSalt
      (by decide) (by decide)
  · exact verify_after_set_password.2 sampleUser "wrongpw" (by decide)

/-- C9: `login` succeeds exactly when the input e-mail — trimmed and
lowercased — equals the stored e-mail and password verification succeeds;
success stamps `last_login_at` with the supplied clock reading and changes
nothing else, failure changes no state at all. -/
theorem login_normalized_email_and_stamp (u : User) (email p : String)
    (now : ℕ) :
    ((u.login email p now).1 = true ↔
      (u.email = pyLower (pyStrip email) ∧ u.verify_password p = true)) ∧
    ((u.login email p now).1 = true →
      (u.login email p now).2 = { u with last_login_at := some now }) ∧
    ((u.login email p now).1 = false → (u.login email p now).2 = u) := by
  have hfst : (u.login email p now).1 =
      (u.email == pyLower (pyStrip email) && u.verify_password p) := by
    rw [User.login]
    by_cases hok :
        (u.email == pyLower (pyStrip email) && u.verify_password p) = true
    · simp [hok]
    · simp [hok]
  refine ⟨?_, ?_, ?_⟩
  · rw [hfst, Bool.and_eq_true, beq_iff_eq]
  · intro h
    rw [hfst] at h
    rw [User.login]
    simp [h]
  · intro h
    rw [hfst] at h
    rw [User.login]
    simp [h]

/-- Witness for C9: the sample user logs in with a differently-cased,
padded e-mail and the right password, and `last_login_at` is stamped; a
wrong password fails and leaves the user unchanged. -/
theorem login_normalized_email_and_stamp_witness :
    (sampleUser.login " A@B.CO " "secret1" 42).2.last_login_at = some 42 ∧
    (sampleUser.login "a@b.co" "wrongpw" 42).2 = sampleUser := by
  constructor
  · rw [(login_normalized_email_and_stamp sampleUser " A@B.CO " "secret1"
      42).2.1 (by decide)]
  · exact (login_normalized_email_and_stamp sampleUser "a@b.co" "wrongpw"
      42).2.2 (by decide)

/-- C10: `User.__init__` enforces no minimum password length — with a
well-formed e-mail, construction succeeds for a password of any length
(the witness uses a 2-character one) and stores its salted hash; only
`set_password` enforces the 6-character rule. -/
theorem user_construction_any_password_length (user_id : ℤ)
    (name email pw : String) (now : ℕ) (fresh : Bytes)
    (h : emailReFullmatch email = true) :
    mkUser user_id name email pw now fresh =
      .ok { person_id := user_id, name := pyStrip name,
            email := pyLower (pyStrip email), created_at := now,
            status := "active", pw_salt := (hash_password pw none fresh).1,
            pw_digest := (hash_password pw none fresh).2,
            orders := [], cart := none, last_login_at := none } := by
  simp [mkUser, h]

/-- Witness for C10: a 2-character password (shorter than the 6-character
`set_password` minimum) is accepted at construction and its salted hash
stored. -/
theorem user_construction_any_password_length_witness :
    "ab".length < 6 ∧
    mkUser 7 "Neo" "n@x.io" "ab" 0 sampleSalt =
      .ok { person_id := 7, name := pyStrip "Neo",
            email := pyLower (pyStrip "n@x.io"), created_at := 0,
            status := "active",
            pw_salt := (hash_password "ab" none sampleSalt).1,
            pw_digest := (hash_password "ab" none sampleSalt).2,
            orders := [], cart := none, last_login_at := none } :=
  ⟨by decide, user_construction_any_password_length 7 "Neo" "n@x.io" "ab" 0
    sampleSalt (by decide)⟩
